import Mathlib

/-!
Shallow embedding of the intent-routing pipeline of `exp1/complex.py`:
the keyword classifier `analyze_query`, the dispatcher `execute_plan`,
and the aggregator `format_response` of the four-agent demo, together
with the pure tool functions (`add`, `subtract`, `multiply`, `divide`,
`get_weather`).

Modelling conventions:
- Python strings are Lean `String`s; `needle in haystack` is `containsSubstr`;
  `str.lower()` is `pyLower` (character-wise lowering, ASCII range).
- Python floats are modelled as exact rationals `ℚ` (the claims under
  verification concern control flow, not rounding).
- The two LLM-backed sub-agents reached through `achat` are opaque
  collaborators; `execute_plan` takes them as explicit function
  parameters `String → Except String String` (`.error` models a raised
  exception caught by the surrounding `try/except`).
- `re.findall` for the three city patterns and for the number pattern
  `\d+\.?\d*` is implemented by specialised scanners with the same
  left-to-right, non-overlapping, leftmost-match semantics.
-/

/-- Python `str.lower()`: character-wise lowering (queries are ASCII). -/
def pyLower (s : String) : String := String.mk (s.data.map Char.toLower)

/-- Python substring test `needle in haystack` on character lists:
true iff `needle` occurs contiguously in `haystack`. -/
def containsSubAux : List Char → List Char → Bool
  | needle, [] => needle.isEmpty
  | needle, c :: rest => needle.isPrefixOf (c :: rest) || containsSubAux needle rest

/-- Python `needle in haystack` for strings. -/
def containsSubstr (haystack needle : String) : Bool :=
  containsSubAux needle.data haystack.data

/- ===== TOOLS (exp1/complex.py lines 15-48) ===== -/

/-- Add two numbers together. -/
def add (x y : ℚ) : ℚ := x + y

/-- Subtract y from x. -/
def subtract (x y : ℚ) : ℚ := x - y

/-- Multiply two numbers together. -/
def multiply (x y : ℚ) : ℚ := x * y

/-- Divide x by y.  The Python function returns the string
"Error: Division by zero" instead of a number when `y == 0`; the
value-or-error union is modelled as `Except`. -/
def divide (x y : ℚ) : Except String ℚ :=
  if y = 0 then Except.error "Error: Division by zero" else Except.ok (x / y)

/-- The `weather_data` dictionary inside `get_weather`. -/
def weather_data : List (String × String) :=
  [("india", "Temperature: 30°C, Sunny and hot"),
   ("new york", "Temperature: 22°C, Partly cloudy"),
   ("london", "Temperature: 18°C, Rainy"),
   ("tokyo", "Temperature: 25°C, Clear skies"),
   ("paris", "Temperature: 20°C, Cloudy"),
   ("berlin", "Temperature: 19°C, Overcast")]

/-- Get weather information for a given city (returns dummy temperature data). -/
def get_weather (city : String) : String :=
  let city_lower := pyLower city
  match weather_data.lookup city_lower with
  | some v => "Weather in " ++ city ++ ": " ++ v
  | none => "Weather in " ++ city ++ ": Temperature: 25°C, Partly cloudy (default)"

/- ===== NUMBER EXTRACTION: re.findall(r'\d+\.?\d*', query) ===== -/

/-- Scanner for `re.findall(r'\d+\.?\d*', query)`: at each position, a
maximal digit run, an optional dot, then a maximal digit run; scanning
resumes after the match.  The fuel argument (initialised to the input
length, which every match strictly decreases below) only establishes
termination. -/
def findNumbersAux : Nat → List Char → List String
  | 0, _ => []
  | _, [] => []
  | Nat.succ fuel, c :: rest =>
    if c.isDigit then
      let intPart := (c :: rest).takeWhile Char.isDigit
      match (c :: rest).dropWhile Char.isDigit with
      | '.' :: rest2 =>
        String.mk (intPart ++ '.' :: rest2.takeWhile Char.isDigit)
          :: findNumbersAux fuel (rest2.dropWhile Char.isDigit)
      | other => String.mk intPart :: findNumbersAux fuel other
    else findNumbersAux fuel rest

/-- All decimal number tokens of the text, left to right. -/
def findNumbers (cs : List Char) : List String := findNumbersAux cs.length cs

/- ===== CITY EXTRACTION: the three regex patterns of analyze_query ===== -/

/-- Match a literal: `some rest` iff the list starts with `lit`. -/
def dropPrefixQ : List Char → List Char → Option (List Char)
  | [], cs => some cs
  | _ :: _, [] => none
  | l :: ls, c :: cs => if l = c then dropPrefixQ ls cs else none

/-- Python regex `\w` (ASCII range). -/
def isWordChar (c : Char) : Bool := c.isAlphanum || c == '_'

/-- Python regex `\s`. -/
def isSpaceChar (c : Char) : Bool := c.isWhitespace

/-- Alternation `(?:in|of|for)` at the current position (the three
literals are pairwise non-overlapping, so no backtracking arises). -/
def prepRest (cs : List Char) : Option (List Char) :=
  match dropPrefixQ "in".data cs with
  | some r => some r
  | none =>
    match dropPrefixQ "of".data cs with
    | some r => some r
    | none => dropPrefixQ "for".data cs

/-- Match `(?:in|of|for)\s+(\w+)` at the current position, returning the
capture and the remainder.  `\s+` and `\w+` are greedy; their character
classes are disjoint, so greedy take-all is exact. -/
def matchPrepSpaceWord (cs : List Char) : Option (String × List Char) :=
  match prepRest cs with
  | none => none
  | some rest =>
    if (rest.takeWhile isSpaceChar).isEmpty then none
    else
      let afterSp := rest.dropWhile isSpaceChar
      let w := afterSp.takeWhile isWordChar
      if w.isEmpty then none
      else some (String.mk w, afterSp.dropWhile isWordChar)

/-- Lazy `.*?(?:in|of|for)\s+(\w+)`: try the tail pattern at the nearest
position first; `.` never consumes a newline. -/
def lazyDotPrep : List Char → Option (String × List Char)
  | [] => none
  | c :: rest =>
    match matchPrepSpaceWord (c :: rest) with
    | some r => some r
    | none => if c = '\n' then none else lazyDotPrep rest

/-- Match `key.*?(?:in|of|for)\s+(\w+)` at the current position
(`key` is `weather` or `temperature`). -/
def matchKeyPrepAt (key : List Char) (cs : List Char) : Option (String × List Char) :=
  match dropPrefixQ key cs with
  | none => none
  | some rest => lazyDotPrep rest

/-- Lazy `.*?weather`: remainder after the nearest occurrence of the
literal `weather`, with no newline consumed by `.*?`. -/
def searchLitNoNewline : List Char → Option (List Char)
  | [] => none
  | c :: rest =>
    match dropPrefixQ "weather".data (c :: rest) with
    | some rem => some rem
    | none => if c = '\n' then none else searchLitNoNewline rest

/-- Backtracking of the greedy `(\w+)` in pattern 3: the word run is
tried longest-first (argument reversed), each dropped character moving
into the `.*?` region. -/
def trySplitsRev : List Char → List Char → Option (String × List Char)
  | [], _ => none
  | c :: wrev, tail =>
    match searchLitNoNewline tail with
    | some rem => some (String.mk (c :: wrev).reverse, rem)
    | none => trySplitsRev wrev (c :: tail)

/-- Match `(?:in|of|for)\s+(\w+).*?weather` at the current position. -/
def matchPrepWordKeyAt (cs : List Char) : Option (String × List Char) :=
  match prepRest cs with
  | none => none
  | some rest =>
    if (rest.takeWhile isSpaceChar).isEmpty then none
    else
      let afterSp := rest.dropWhile isSpaceChar
      let w := afterSp.takeWhile isWordChar
      if w.isEmpty then none
      else trySplitsRev w.reverse (afterSp.dropWhile isWordChar)

/-- The three `city_patterns` of `analyze_query`, in source order. -/
inductive CityPattern where
  | p1   -- weather.*?(?:in|of|for)\s+(\w+)
  | p2   -- temperature.*?(?:in|of|for)\s+(\w+)
  | p3   -- (?:in|of|for)\s+(\w+).*?weather
deriving DecidableEq, Repr

/-- `re.findall` driver: scan left to right; on a match emit the capture
and resume after the match, otherwise advance one position.  Fuel is the
input length; every step strictly shortens the text. -/
def findAllAux (m : List Char → Option (String × List Char)) : Nat → List Char → List String
  | 0, _ => []
  | _, [] => []
  | Nat.succ fuel, c :: rest =>
    match m (c :: rest) with
    | some (g, rem) => g :: findAllAux m fuel rem
    | none => findAllAux m fuel rest

/-- `re.findall(pattern, text)` for one of the three city patterns. -/
def findAllPat (p : CityPattern) (cs : List Char) : List String :=
  findAllAux
    (match p with
     | .p1 => matchKeyPrepAt "weather".data
     | .p2 => matchKeyPrepAt "temperature".data
     | .p3 => matchPrepWordKeyAt)
    cs.length cs

/- ===== ORCHESTRATOR: SimpleOrchestrator.analyze_query (lines 110-159) ===== -/

/-- The `math_keywords` trigger list, in source order. -/
def math_keywords : List String :=
  ["add", "subtract", "multiply", "divide", "calculate", "compute",
   "+", "-", "*", "/", "times", "plus", "minus", "divided by",
   "what is", "equals", "sum", "difference", "product", "quotient"]

/-- The `weather_keywords` trigger list, in source order. -/
def weather_keywords : List String :=
  ["weather", "temperature", "temp", "climate", "forecast",
   "hot", "cold", "sunny", "rainy", "cloudy"]

/-- The `common_cities` gazetteer, in source order. -/
def common_cities : List String :=
  ["india", "new york", "london", "tokyo", "paris", "berlin"]

/-- The `city_patterns` list of `analyze_query`, in source order. -/
def city_patterns : List CityPattern := [.p1, .p2, .p3]

/-- The analysis dictionary returned by `analyze_query`. -/
structure Analysis where
  has_math : Bool
  has_weather : Bool
  numbers : List String
  cities : List String
  original_query : String
deriving DecidableEq, Repr

/-- Analyze user query to determine required actions
(`SimpleOrchestrator.analyze_query`). -/
def analyze_query (query : String) : Analysis :=
  let query_lower := pyLower query
  let has_math := math_keywords.any (fun keyword => containsSubstr query_lower keyword)
  let has_weather := weather_keywords.any (fun keyword => containsSubstr query_lower keyword)
  let numbers := findNumbers query.data
  let cities := city_patterns.foldl
    (fun acc pat => acc ++ findAllPat pat query_lower.data) []
  let cities :=
    if cities.isEmpty then
      common_cities.foldl
        (fun acc city => if containsSubstr query_lower city then acc ++ [city] else acc) []
    else cities
  { has_math := has_math, has_weather := has_weather, numbers := numbers,
    cities := cities, original_query := query }

/- ===== DISPATCH: SimpleOrchestrator.execute_plan (lines 161-199) ===== -/

/-- One `achat` invocation of a sub-agent, with the instruction passed. -/
inductive AgentCall where
  | weather (query : String)
  | calculator (query : String)
deriving DecidableEq, Repr

/-- Whether a recorded call went to the weather sub-agent. -/
def AgentCall.isWeather : AgentCall → Bool
  | .weather _ => true
  | .calculator _ => false

/-- The results dictionary built by `execute_plan`.  The first three
fields are the source's `weather_results` (city/response pairs),
`calculation_results` (query/response pairs) and `execution_log`;
`agent_calls` is a ghost trace recording each sub-agent `achat`
invocation in execution order, added for observability of dispatch
order (it mirrors the call sites exactly and carries no other data). -/
structure ExecResults where
  weather_results : List (String × String)
  calculation_results : List (String × String)
  execution_log : List String
  agent_calls : List AgentCall
deriving DecidableEq, Repr

/-- The weather query string built for one city. -/
def weather_query_for (city : String) : String :=
  "What is the weather in " ++ city ++ "?"

/-- One iteration of the weather loop of `execute_plan`: call the
weather agent for `city` inside try/except, appending either the
success pair or the failure log entry. -/
def weatherStep (weatherAgent : String → Except String String)
    (r : ExecResults) (city : String) : ExecResults :=
  match weatherAgent (weather_query_for city) with
  | Except.ok resp =>
    { r with
      weather_results := r.weather_results ++ [(city, resp)],
      execution_log := r.execution_log ++ ["✅ Weather query for " ++ city ++ " completed"],
      agent_calls := r.agent_calls ++ [AgentCall.weather (weather_query_for city)] }
  | Except.error e =>
    { r with
      execution_log := r.execution_log ++ ["❌ Weather query for " ++ city ++ " failed: " ++ e],
      agent_calls := r.agent_calls ++ [AgentCall.weather (weather_query_for city)] }

/-- The math block of `execute_plan`: one calculator-agent call on the
original query inside try/except. -/
def mathStep (calculatorAgent : String → Except String String)
    (original_query : String) (r : ExecResults) : ExecResults :=
  match calculatorAgent original_query with
  | Except.ok resp =>
    { r with
      calculation_results := r.calculation_results ++ [(original_query, resp)],
      execution_log := r.execution_log ++ ["✅ Mathematical calculation completed"],
      agent_calls := r.agent_calls ++ [AgentCall.calculator original_query] }
  | Except.error e =>
    { r with
      execution_log := r.execution_log ++ ["❌ Mathematical calculation failed: " ++ e],
      agent_calls := r.agent_calls ++ [AgentCall.calculator original_query] }

/-- Execute the planned tasks based on analysis
(`SimpleOrchestrator.execute_plan`).  The two sub-agents are passed as
explicit collaborators; `.error` models an exception caught by the
surrounding try/except. -/
def execute_plan (weatherAgent calculatorAgent : String → Except String String)
    (analysis : Analysis) : ExecResults :=
  let results : ExecResults := ⟨[], [], [], []⟩
  let results :=
    if analysis.has_weather then
      let cities := if analysis.cities.isEmpty then ["default location"] else analysis.cities
      cities.foldl (weatherStep weatherAgent) results
    else results
  let results :=
    if analysis.has_math then mathStep calculatorAgent analysis.original_query results
    else results
  results

/-- Main orchestration method (`SimpleOrchestrator.process_query`). -/
def process_query (weatherAgent calculatorAgent : String → Except String String)
    (user_query : String) : ExecResults :=
  execute_plan weatherAgent calculatorAgent (analyze_query user_query)

/- ===== AGGREGATION: ChatAgent.format_response (lines 221-239) ===== -/

/-- Format the results into a natural language response
(`ChatAgent.format_response`). -/
def format_response (results : ExecResults) (original_query : String) : String :=
  let response_parts : List String := []
  let response_parts :=
    if results.calculation_results.isEmpty then response_parts
    else results.calculation_results.foldl
      (fun acc calc_result => acc ++ ["Mathematical result: " ++ calc_result.2]) response_parts
  let response_parts :=
    if results.weather_results.isEmpty then response_parts
    else results.weather_results.foldl
      (fun acc weather_result => acc ++ ["Weather information: " ++ weather_result.2]) response_parts
  let response_parts :=
    if response_parts.isEmpty then ["I couldn't find specific information to answer your query."]
    else response_parts
  String.intercalate "\n\n" response_parts

/-- Process user message through the entire pipeline
(`ChatAgent.process_user_message`). -/
def process_user_message (weatherAgent calculatorAgent : String → Except String String)
    (user_message : String) : String :=
  format_response (process_query weatherAgent calculatorAgent user_message) user_message

/- ===== OBSERVERS USED BY THE CLAIM STATEMENTS ===== -/

/-- City-pattern extraction alone: the concatenated `re.findall` output
of the three patterns, in pattern order. -/
def patternCities (query_lower : String) : List String :=
  findAllPat .p1 query_lower.data ++ findAllPat .p2 query_lower.data
    ++ findAllPat .p3 query_lower.data

/-- The city list the weather loop of `execute_plan` iterates over. -/
def citiesOrDefault (a : Analysis) : List String :=
  if a.cities.isEmpty then ["default location"] else a.cities

/-- Formalises "the order domains were first detected in the request
text": the least index at which one of the domain's trigger keywords
occurs, `none` when no trigger occurs. -/
def firstKeywordIndex (keywords : List String) : List Char → Option Nat
  | [] => none
  | c :: rest =>
    if keywords.any (fun k => k.data.isPrefixOf (c :: rest)) then some 0
    else (firstKeywordIndex keywords rest).map (· + 1)

/-- `InOrderSubstrings ts cs` states that the strings `ts` occur in
`cs` as pairwise disjoint contiguous substrings, in the given order:
the formal reading of "extracted in left-to-right order". -/
inductive InOrderSubstrings : List String → List Char → Prop where
  | nil (cs : List Char) : InOrderSubstrings [] cs
  | cons (t : String) (ts : List String) (pre rest : List Char) :
      InOrderSubstrings ts rest → InOrderSubstrings (t :: ts) (pre ++ t.data ++ rest)

/-- The two capability domains of the demo. -/
inductive Domain where
  | math
  | weather
deriving DecidableEq, Repr

/-- Domains with a registered handler: `SimpleOrchestrator.__init__`
binds `calculator_agent` (math) and `weather_agent` (weather). -/
def registered_domains : List Domain := [Domain.math, Domain.weather]

/-- The domain tags carried by an analysis record (its two flags). -/
def detectedDomains (a : Analysis) : List Domain :=
  (if a.has_math then [Domain.math] else []) ++ (if a.has_weather then [Domain.weather] else [])

/-- The weather-results entry one city contributes (none on failure). -/
def weatherResultOf (weatherAgent : String → Except String String)
    (city : String) : Option (String × String) :=
  match weatherAgent (weather_query_for city) with
  | Except.ok resp => some (city, resp)
  | Except.error _ => none

/-- The entry the math block contributes to `calculation_results`. -/
def calcResultOf (calculatorAgent : String → Except String String)
    (original_query : String) : Option (String × String) :=
  match calculatorAgent original_query with
  | Except.ok resp => some (original_query, resp)
  | Except.error _ => none

/- ===== HELPER LEMMAS ===== -/

theorem weatherFold_weather_results (wf : String → Except String String) :
    ∀ (cities : List String) (r : ExecResults),
      (cities.foldl (weatherStep wf) r).weather_results
        = r.weather_results ++ cities.filterMap (weatherResultOf wf) := by
  intro cities
  induction cities with
  | nil => intro r; simp
  | cons city rest ih =>
    intro r
    rw [List.foldl_cons, ih]
    unfold weatherStep
    cases hww : wf (weather_query_for city) <;>
      simp [List.filterMap_cons, weatherResultOf, hww]

theorem weatherFold_calculation_results (wf : String → Except String String) :
    ∀ (cities : List String) (r : ExecResults),
      (cities.foldl (weatherStep wf) r).calculation_results = r.calculation_results := by
  intro cities
  induction cities with
  | nil => intro r; simp
  | cons city rest ih =>
    intro r
    rw [List.foldl_cons, ih]
    unfold weatherStep
    cases wf (weather_query_for city) <;> simp

theorem weatherFold_agent_calls (wf : String → Except String String) :
    ∀ (cities : List String) (r : ExecResults),
      (cities.foldl (weatherStep wf) r).agent_calls
        = r.agent_calls ++ cities.map (fun city => AgentCall.weather (weather_query_for city)) := by
  intro cities
  induction cities with
  | nil => intro r; simp
  | cons city rest ih =>
    intro r
    rw [List.foldl_cons, ih]
    unfold weatherStep
    cases wf (weather_query_for city) <;> simp

theorem mathStep_weather_results (cf : String → Except String String)
    (oq : String) (r : ExecResults) :
    (mathStep cf oq r).weather_results = r.weather_results := by
  unfold mathStep; cases cf oq <;> simp

theorem mathStep_calculation_results (cf : String → Except String String)
    (oq : String) (r : ExecResults) :
    (mathStep cf oq r).calculation_results
      = r.calculation_results ++ (calcResultOf cf oq).toList := by
  unfold mathStep calcResultOf; cases cf oq <;> simp

theorem mathStep_agent_calls (cf : String → Except String String)
    (oq : String) (r : ExecResults) :
    (mathStep cf oq r).agent_calls = r.agent_calls ++ [AgentCall.calculator oq] := by
  unfold mathStep; cases cf oq <;> simp

theorem execute_plan_weather_results (wf cf : String → Except String String) (a : Analysis) :
    (execute_plan wf cf a).weather_results
      = if a.has_weather then (citiesOrDefault a).filterMap (weatherResultOf wf) else [] := by
  unfold execute_plan citiesOrDefault
  cases hw : a.has_weather <;> cases hm : a.has_math <;>
    simp [hw, hm, mathStep_weather_results, weatherFold_weather_results]

theorem execute_plan_calculation_results (wf cf : String → Except String String) (a : Analysis) :
    (execute_plan wf cf a).calculation_results
      = if a.has_math then (calcResultOf cf a.original_query).toList else [] := by
  unfold execute_plan
  cases hw : a.has_weather <;> cases hm : a.has_math <;>
    simp [hw, hm, mathStep_calculation_results, weatherFold_calculation_results]

theorem execute_plan_agent_calls (wf cf : String → Except String String) (a : Analysis) :
    (execute_plan wf cf a).agent_calls
      = (if a.has_weather then
           (citiesOrDefault a).map (fun city => AgentCall.weather (weather_query_for city))
         else [])
        ++ (if a.has_math then [AgentCall.calculator a.original_query] else []) := by
  unfold execute_plan citiesOrDefault
  cases hw : a.has_weather <;> cases hm : a.has_math <;>
    simp [hw, hm, mathStep_agent_calls, weatherFold_agent_calls]

theorem foldl_append_singleton {α : Type} (f : α → String) :
    ∀ (l : List α) (acc : List String),
      l.foldl (fun a x => a ++ [f x]) acc = acc ++ l.map f := by
  intro l
  induction l with
  | nil => intro acc; simp
  | cons x rest ih => intro acc; rw [List.foldl_cons, ih]; simp

/-- Closed form of `format_response`: mathematical payloads first, then
weather payloads, the single fallback sentence when both lists are
empty. -/
theorem format_response_eq (r : ExecResults) (oq : String) :
    format_response r oq
      = (if (r.calculation_results.map (fun p => "Mathematical result: " ++ p.2)
             ++ r.weather_results.map (fun p => "Weather information: " ++ p.2)).isEmpty
         then "I couldn't find specific information to answer your query."
         else String.intercalate "\n\n"
           (r.calculation_results.map (fun p => "Mathematical result: " ++ p.2)
            ++ r.weather_results.map (fun p => "Weather information: " ++ p.2))) := by
  obtain ⟨wr, cr, log, calls⟩ := r
  unfold format_response
  cases cr <;> cases wr <;> simp [foldl_append_singleton] <;> rfl

theorem inOrder_cons_char (c : Char) {ts : List String} {cs : List Char}
    (h : InOrderSubstrings ts cs) : InOrderSubstrings ts (c :: cs) := by
  induction h with
  | nil cs => exact InOrderSubstrings.nil _
  | cons t ts pre rest h _ =>
    have he : c :: (pre ++ t.data ++ rest) = (c :: pre) ++ t.data ++ rest := by simp
    rw [he]
    exact InOrderSubstrings.cons t ts (c :: pre) rest h

theorem inOrder_token (tok : List Char) {ts : List String} {rest : List Char}
    (h : InOrderSubstrings ts rest) :
    InOrderSubstrings (String.mk tok :: ts) (tok ++ rest) := by
  have := InOrderSubstrings.cons (String.mk tok) ts [] rest h
  simpa using this

theorem findNumbersAux_inOrder :
    ∀ (fuel : Nat) (cs : List Char), InOrderSubstrings (findNumbersAux fuel cs) cs := by
  intro fuel
  induction fuel with
  | zero => intro cs; simpa [findNumbersAux] using InOrderSubstrings.nil cs
  | succ fuel ih =>
    intro cs
    cases cs with
    | nil => simpa [findNumbersAux] using InOrderSubstrings.nil ([] : List Char)
    | cons c rest =>
      cases hc : c.isDigit with
      | false => simpa [findNumbersAux, hc] using inOrder_cons_char c (ih rest)
      | true =>
        have hsplit := List.takeWhile_append_dropWhile (p := Char.isDigit) (l := c :: rest)
        simp only [findNumbersAux, hc, if_true]
        split
        · next rest2 heq =>
          have h2 := List.takeWhile_append_dropWhile (p := Char.isDigit) (l := rest2)
          have hcs : ((c :: rest).takeWhile Char.isDigit ++ '.' :: rest2.takeWhile Char.isDigit)
                ++ rest2.dropWhile Char.isDigit = c :: rest := by
            rw [List.append_assoc, List.cons_append]
            rw [show rest2.takeWhile Char.isDigit ++ rest2.dropWhile Char.isDigit = rest2 from h2]
            rw [← heq, hsplit]
          have key := inOrder_token
            ((c :: rest).takeWhile Char.isDigit ++ '.' :: rest2.takeWhile Char.isDigit)
            (ih (rest2.dropWhile Char.isDigit))
          rw [hcs] at key
          exact key
        · have key := inOrder_token ((c :: rest).takeWhile Char.isDigit)
            (ih ((c :: rest).dropWhile Char.isDigit))
          rw [hsplit] at key
          exact key

theorem foldl_append_if (p : String → Bool) :
    ∀ (l : List String) (acc : List String),
      l.foldl (fun acc city => if p city then acc ++ [city] else acc) acc
        = acc ++ l.filter p := by
  intro l
  induction l with
  | nil => intro acc; simp
  | cons x rest ih =>
    intro acc
    rw [List.foldl_cons, ih]
    cases hx : p x <;> simp [List.filter_cons, hx]

theorem analyze_query_cities_eq (q : String) :
    (analyze_query q).cities
      = (if (patternCities (pyLower q)).isEmpty
         then common_cities.filter (fun city => containsSubstr (pyLower q) city)
         else patternCities (pyLower q)) := by
  have hfold : city_patterns.foldl
      (fun acc pat => acc ++ findAllPat pat (pyLower q).data) []
      = patternCities (pyLower q) := by
    simp [city_patterns, patternCities]
  show (let cities := city_patterns.foldl
          (fun acc pat => acc ++ findAllPat pat (pyLower q).data) []
        if cities.isEmpty then
          common_cities.foldl
            (fun acc city => if containsSubstr (pyLower q) city then acc ++ [city] else acc) []
        else cities) = _
  rw [hfold, foldl_append_if]
  simp

theorem mem_singleton_containsSubAux (c : Char) :
    ∀ (l : List Char), c ∈ l → containsSubAux [c] l = true := by
  intro l
  induction l with
  | nil => intro h; cases h
  | cons a rest ih =>
    intro h
    unfold containsSubAux
    rcases List.mem_cons.mp h with h | h
    · subst h
      have : List.isPrefixOf [c] (c :: rest) = true := by
        simp [List.isPrefixOf]
      simp [this]
    · simp [ih h]

theorem analyze_query_has_math (q : String) :
    (analyze_query q).has_math
      = math_keywords.any (fun keyword => containsSubstr (pyLower q) keyword) := rfl

theorem analyze_query_has_weather (q : String) :
    (analyze_query q).has_weather
      = weather_keywords.any (fun keyword => containsSubstr (pyLower q) keyword) := rfl

/- ===== CLAIM THEOREMS ===== -/

/-- Claim C1, counterexample.  In the request
"add 2 and 3 and tell me the weather in paris" the math domain is first
detected at index 0 ("add") and the weather domain only at index 28
("weather"), yet dispatch invokes the weather sub-agent before the
calculator sub-agent: the PartialResult sequence does not follow the
detection order of the domains. -/
theorem c1_counterexample :
    firstKeywordIndex math_keywords
        (pyLower "add 2 and 3 and tell me the weather in paris").data = some 0
    ∧ firstKeywordIndex weather_keywords
        (pyLower "add 2 and 3 and tell me the weather in paris").data = some 28
    ∧ (process_query (fun _ => Except.ok "W") (fun _ => Except.ok "M")
        "add 2 and 3 and tell me the weather in paris").agent_calls
      = [AgentCall.weather "What is the weather in paris?",
         AgentCall.calculator "add 2 and 3 and tell me the weather in paris"] := by
  exact ⟨rfl, rfl, rfl⟩

/-- Claim C1, amended: the two orders are fixed rather than
detection-ordered.  `execute_plan` always performs every weather
sub-agent call before the calculator call, and `format_response` always
places the mathematical payloads before the weather payloads, whatever
order the domains were detected in the request text. -/
theorem c1_fixed_orders (wf cf : String → Except String String) (a : Analysis)
    (r : ExecResults) (oq : String) :
    (execute_plan wf cf a).agent_calls
      = (execute_plan wf cf a).agent_calls.filter AgentCall.isWeather
        ++ (execute_plan wf cf a).agent_calls.filter (fun c => !(AgentCall.isWeather c))
    ∧ format_response r oq
      = (if (r.calculation_results.map (fun p => "Mathematical result: " ++ p.2)
             ++ r.weather_results.map (fun p => "Weather information: " ++ p.2)).isEmpty
         then "I couldn't find specific information to answer your query."
         else String.intercalate "\n\n"
           (r.calculation_results.map (fun p => "Mathematical result: " ++ p.2)
            ++ r.weather_results.map (fun p => "Weather information: " ++ p.2))) := by
  constructor
  · rw [execute_plan_agent_calls]
    set W := (if a.has_weather then
        (citiesOrDefault a).map (fun city => AgentCall.weather (weather_query_for city))
      else []) with hW
    set M := (if a.has_math then [AgentCall.calculator a.original_query] else []) with hM
    have hWall : ∀ x ∈ W, AgentCall.isWeather x = true := by
      intro x hx
      rw [hW] at hx
      cases hw : a.has_weather <;> simp [hw] at hx
      rcases hx with ⟨city, _, rfl⟩
      rfl
    have hMall : ∀ x ∈ M, AgentCall.isWeather x = false := by
      intro x hx
      rw [hM] at hx
      cases hm : a.has_math <;> simp [hm] at hx
      rw [hx]
      rfl
    rw [List.filter_append, List.filter_append]
    rw [List.filter_eq_self.mpr hWall,
        List.filter_eq_nil_iff.mpr (fun a ha => by simp [hMall a ha]),
        List.filter_eq_nil_iff.mpr (fun a ha => by simp [hWall a ha]),
        List.filter_eq_self.mpr (fun a ha => by simp [hMall a ha])]
    simp
  · exact format_response_eq r oq

/-- Claim C2, counterexample.  The "not understood" outcome (no domain
implicated, request "hello") and the all-handlers-failed outcome
(weather implicated, handler raises) produce the very same fallback
message, not distinct ones. -/
theorem c2_counterexample :
    process_user_message (fun _ => Except.ok "ok") (fun _ => Except.ok "ok") "hello"
      = "I couldn't find specific information to answer your query."
    ∧ process_user_message (fun _ => Except.error "boom") (fun _ => Except.error "boom")
        "weather in london"
      = "I couldn't find specific information to answer your query." := by
  exact ⟨rfl, rfl⟩

/-- Claim C2, amended: `format_response` returns the one fallback
message "I couldn't find specific information to answer your query."
whenever no success payload was collected — both when zero domains were
implicated and when handlers were dispatched but none succeeded. -/
theorem c2_single_fallback (r : ExecResults) (oq : String)
    (hc : r.calculation_results = []) (hw : r.weather_results = []) :
    format_response r oq = "I couldn't find specific information to answer your query." := by
  rw [format_response_eq, hc, hw]
  rfl

theorem c2_single_fallback_witness :
    (⟨[], [], ["log"], []⟩ : ExecResults).calculation_results = []
    ∧ (⟨[], [], ["log"], []⟩ : ExecResults).weather_results = []
    ∧ format_response ⟨[], [], ["log"], []⟩ "hello"
        = "I couldn't find specific information to answer your query." :=
  ⟨rfl, rfl, c2_single_fallback ⟨[], [], ["log"], []⟩ "hello" rfl rfl⟩

/-- Claim C3: `divide` answers divisor zero with the failure value
"Error: Division by zero" rather than raising, returns `x / y` whenever
`y ≠ 0`, and one domain's handler can never prevent the other domain's
handler from being invoked: each result list of `execute_plan` is
independent of the other domain's agent, and the call trace is
independent of both agents' outcomes. -/
theorem c3_divide_failure_isolated (x y : ℚ)
    (wf wf2 cf cf2 : String → Except String String) (a : Analysis) :
    divide x 0 = Except.error "Error: Division by zero"
    ∧ (y ≠ 0 → divide x y = Except.ok (x / y))
    ∧ (execute_plan wf cf a).weather_results = (execute_plan wf cf2 a).weather_results
    ∧ (execute_plan wf cf a).calculation_results
        = (execute_plan wf2 cf a).calculation_results
    ∧ (execute_plan wf cf a).agent_calls = (execute_plan wf2 cf2 a).agent_calls := by
  refine ⟨by simp [divide], fun hy => by simp [divide, hy], ?_, ?_, ?_⟩
  · rw [execute_plan_weather_results, execute_plan_weather_results]
  · rw [execute_plan_calculation_results, execute_plan_calculation_results]
  · rw [execute_plan_agent_calls, execute_plan_agent_calls]

theorem c3_divide_failure_isolated_witness :
    (2 : ℚ) ≠ 0
    ∧ divide 10 0 = Except.error "Error: Division by zero"
    ∧ divide 10 2 = Except.ok (10 / 2) := by
  have h := c3_divide_failure_isolated 10 2
    (fun _ => Except.ok "a") (fun _ => Except.error "b")
    (fun _ => Except.ok "c") (fun _ => Except.error "d")
    (analyze_query "add 1 and 2")
  exact ⟨by norm_num, h.1, h.2.1 (by norm_num)⟩

/-- Claim C4: a request none of whose lowercased text contains a math
or weather trigger keyword is classified with both domain flags false —
no error is signalled, the classifier is total — and the full pipeline
then returns the fallback response. -/
theorem c4_no_trigger_fallback (q : String) (wf cf : String → Except String String)
    (hm : ∀ k ∈ math_keywords, containsSubstr (pyLower q) k = false)
    (hw : ∀ k ∈ weather_keywords, containsSubstr (pyLower q) k = false) :
    (analyze_query q).has_math = false
    ∧ (analyze_query q).has_weather = false
    ∧ process_user_message wf cf q
        = "I couldn't find specific information to answer your query." := by
  have hm' : (analyze_query q).has_math = false := by
    rw [analyze_query_has_math]
    exact List.any_eq_false.mpr (fun k hk => by simp [hm k hk])
  have hw' : (analyze_query q).has_weather = false := by
    rw [analyze_query_has_weather]
    exact List.any_eq_false.mpr (fun k hk => by simp [hw k hk])
  refine ⟨hm', hw', ?_⟩
  unfold process_user_message process_query
  rw [format_response_eq, execute_plan_weather_results, execute_plan_calculation_results,
    hm', hw']
  rfl

theorem c4_no_trigger_fallback_witness :
    (∀ k ∈ math_keywords, containsSubstr (pyLower "") k = false)
    ∧ (∀ k ∈ weather_keywords, containsSubstr (pyLower "") k = false)
    ∧ (analyze_query "").has_math = false
    ∧ (analyze_query "").has_weather = false
    ∧ process_user_message (fun _ => Except.ok "w") (fun _ => Except.ok "m") ""
        = "I couldn't find specific information to answer your query." := by
  have h := c4_no_trigger_fallback "" (fun _ => Except.ok "w") (fun _ => Except.ok "m")
    (by decide) (by decide)
  exact ⟨by decide, by decide, h.1, h.2.1, h.2.2⟩

/-- Claim C5: city extraction consults the three prepositional regex
patterns first and falls back to the fixed gazetteer (filtered by
substring occurrence, in gazetteer order) only when the patterns
extracted nothing; and the extracted decimal number tokens occur in the
request text as disjoint substrings in left-to-right order. -/
theorem c5_extraction (q : String) :
    ((analyze_query q).cities
      = (if (patternCities (pyLower q)).isEmpty
         then common_cities.filter (fun city => containsSubstr (pyLower q) city)
         else patternCities (pyLower q)))
    ∧ InOrderSubstrings (analyze_query q).numbers q.data := by
  exact ⟨analyze_query_cities_eq q, findNumbersAux_inOrder _ _⟩

/-- Claim C6: for a city present in the weather table (after
lowercasing) `get_weather` returns exactly the label plus the stored
entry; for an absent city it returns the configured default string; it
is a total function, never an error. -/
theorem c6_weather_lookup (city : String) :
    (∀ v, weather_data.lookup (pyLower city) = some v →
        get_weather city = "Weather in " ++ city ++ ": " ++ v)
    ∧ (weather_data.lookup (pyLower city) = none →
        get_weather city
          = "Weather in " ++ city ++ ": Temperature: 25°C, Partly cloudy (default)") := by
  constructor
  · intro v hv
    simp [get_weather, hv]
  · intro hn
    simp [get_weather, hn]

theorem c6_weather_lookup_witness :
    weather_data.lookup (pyLower "Tokyo") = some "Temperature: 25°C, Clear skies"
    ∧ get_weather "Tokyo" = "Weather in Tokyo: Temperature: 25°C, Clear skies"
    ∧ weather_data.lookup (pyLower "Nowhereville") = none
    ∧ get_weather "Nowhereville"
        = "Weather in Nowhereville: Temperature: 25°C, Partly cloudy (default)" :=
  ⟨rfl, (c6_weather_lookup "Tokyo").1 _ rfl, rfl, (c6_weather_lookup "Nowhereville").2 rfl⟩

/-- Claim C7: the pipeline is deterministic — dispatching the same
analysis twice against the same agents yields identical results, and
the classifier and each pure handler return equal outputs on equal
inputs (all are pure functions in the embedding, so runs coincide). -/
theorem c7_determinism (wf cf : String → Except String String) (a : Analysis)
    (q city : String) (x y : ℚ) :
    execute_plan wf cf a = execute_plan wf cf a
    ∧ analyze_query q = analyze_query q
    ∧ add x y = add x y
    ∧ subtract x y = subtract x y
    ∧ multiply x y = multiply x y
    ∧ divide x y = divide x y
    ∧ get_weather city = get_weather city :=
  ⟨rfl, rfl, rfl, rfl, rfl, rfl, rfl⟩

/-- Claim C8: the domain tags a classification can carry are always
among the registered domains — the classifier cannot invent a domain,
since its record only has the math and weather flags and
`SimpleOrchestrator.__init__` registers handlers for exactly those. -/
theorem c8_domains_subset (q : String) (d : Domain)
    (h : d ∈ detectedDomains (analyze_query q)) : d ∈ registered_domains := by
  cases d <;> simp [registered_domains]

theorem c8_domains_subset_witness :
    Domain.math ∈ detectedDomains (analyze_query "add 2 and 2")
    ∧ Domain.math ∈ registered_domains :=
  ⟨by decide, c8_domains_subset "add 2 and 2" Domain.math (by decide)⟩

/-- Claim C9: any request whose lowercased text contains one of the
single characters +, -, *, / — wherever it occurs, a hyphen inside an
ordinary word included — sets the math flag, because those one-character
strings are in `math_keywords` and matching is plain substring
containment. -/
theorem c9_symbol_triggers_math (q : String) (c : Char)
    (hc : c ∈ ['+', '-', '*', '/']) (hq : c ∈ (pyLower q).data) :
    (analyze_query q).has_math = true := by
  rw [analyze_query_has_math]
  rw [List.any_eq_true]
  have hsub : containsSubAux [c] (pyLower q).data = true :=
    mem_singleton_containsSubAux c _ hq
  rcases List.mem_cons.mp hc with rfl | hc
  · exact ⟨"+", by simp [math_keywords], hsub⟩
  rcases List.mem_cons.mp hc with rfl | hc
  · exact ⟨"-", by simp [math_keywords], hsub⟩
  rcases List.mem_cons.mp hc with rfl | hc
  · exact ⟨"*", by simp [math_keywords], hsub⟩
  rcases List.mem_cons.mp hc with rfl | hc
  · exact ⟨"/", by simp [math_keywords], hsub⟩
  · cases hc

theorem c9_symbol_triggers_math_witness :
    '-' ∈ ['+', '-', '*', '/']
    ∧ '-' ∈ (pyLower "is Berlin a well-known city").data
    ∧ (analyze_query "is Berlin a well-known city").has_math = true :=
  ⟨by decide, by decide,
   c9_symbol_triggers_math "is Berlin a well-known city" '-' (by decide) (by decide)⟩

/-- Claim C10: when the weather domain is detected but no city was
extracted, the dispatcher still makes exactly one weather sub-agent
call, with the placeholder city "default location", and the weather
results are exactly that one call's outcome. -/
theorem c10_default_location (wf cf : String → Except String String) (a : Analysis)
    (hw : a.has_weather = true) (hc : a.cities = []) :
    (execute_plan wf cf a).agent_calls.filter AgentCall.isWeather
      = [AgentCall.weather "What is the weather in default location?"]
    ∧ (execute_plan wf cf a).weather_results
      = (weatherResultOf wf "default location").toList := by
  constructor
  · rw [execute_plan_agent_calls]
    rw [List.filter_append]
    have h1 : citiesOrDefault a = ["default location"] := by
      simp [citiesOrDefault, hc]
    rw [hw, if_pos rfl] at *
    simp only [h1, hw, if_true, List.map_cons, List.map_nil]
    cases hm : a.has_math <;>
      simp [AgentCall.isWeather, weather_query_for]
  · rw [execute_plan_weather_results, hw, if_pos rfl]
    simp [citiesOrDefault, hc, List.filterMap_cons]
    cases hww : weatherResultOf wf "default location" <;> simp

theorem c10_default_location_witness :
    (analyze_query "is it hot").has_weather = true
    ∧ (analyze_query "is it hot").cities = []
    ∧ (execute_plan (fun _ => Except.ok "w") (fun _ => Except.ok "m")
        (analyze_query "is it hot")).agent_calls.filter AgentCall.isWeather
      = [AgentCall.weather "What is the weather in default location?"] := by
  have h := c10_default_location (fun _ => Except.ok "w") (fun _ => Except.ok "m")
    (analyze_query "is it hot") (by decide) (by decide)
  exact ⟨by decide, by decide, h.1⟩
